import Mathlib

/-!
Verification of the OpenZL JNI binding layer (`src/main/native/openzl_jni.c`).

The native OpenZL library and the JVM runtime are opaque collaborators; each
JNI entry point is embedded as a Lean function over an explicit environment
record whose fields give the outcome of each native / JNI-runtime call
(success flags, reported sizes, produced bytes, error codes).  The embedded
function returns an outcome record carrying the value returned to Java, the
exception raised (if any), and the observable resource events: which arrays
were pinned, the mode of every `Release*ArrayElements` call, whether scratch
memory and native descriptors were allocated and freed, and which native
calls were reached.  Every leaf of each definition corresponds to one
`return` statement of the C function it embeds.
-/

/-- The mode argument of `Release*ArrayElements`: `commit` is mode `0`
(write back), `abort` is `JNI_ABORT` (discard writes). -/
inductive ReleaseMode
  | commit
  | abort
deriving DecidableEq

/-- Exceptions the binding raises.  `invalidHandle` stands for the
`OpenZLException` thrown with the fixed message
`[Error OpenZL JNI] Invalid compressor` / `... Invalid decompressor` at the
`ptr == 0` checks (the spec's INVALID_HANDLE); `nativeError` for every other
`OpenZLException` (the spec's NATIVE_ERROR), carrying its message;
`outOfMemory` for `OutOfMemoryError`; `illegalArgument` for
`IllegalArgumentException`. -/
inductive JniError
  | invalidHandle
  | outOfMemory
  | illegalArgument (msg : String)
  | nativeError (msg : String)
deriving DecidableEq

/-- The built-in OpenZL graphs the switch in `createCompressor` can select. -/
inductive ZLGraph
  | zstd
  | compressGeneric
  | fieldLz
  | store
  | fse
  | huffman
  | entropy
  | bitpack
  | constant
deriving DecidableEq

/-- The `switch (graph_id)` of `Java_net_openzl_OpenZLJNI_createCompressor`
(source lines 143-177), transcribed case by case. -/
def selectGraph (g : Int) : ZLGraph :=
  if g = 0 then ZLGraph.zstd
  else if g = 1 then ZLGraph.compressGeneric
  else if g = 2 then ZLGraph.fieldLz
  else if g = 3 then ZLGraph.store
  else if g = 4 then ZLGraph.fse
  else if g = 5 then ZLGraph.huffman
  else if g = 6 then ZLGraph.entropy
  else if g = 7 then ZLGraph.bitpack
  else if g = 8 then ZLGraph.constant
  else if g = 9 then ZLGraph.compressGeneric
  else ZLGraph.zstd

/-- Environment for `createCompressor`: the outcome of each fallible step.
`none` in the `...Err` fields means the corresponding `ZL_Report` was a
success; `some c` means it failed with error code `c`.  `errStr` models
`ZL_ErrorCode_toString`. -/
structure CreateEnv where
  mallocRecordOk : Bool
  cctxCreateOk : Bool
  compressorCreateOk : Bool
  setFormatVersionErr : Option Nat
  setCompressionLevelErr : Option Nat
  selectStartingGraphErr : Option Nat
  refCompressorErr : Option Nat
  errStr : Nat → String

/-- Outcome of `createCompressor`.  `handle = none` models the C function
returning the sentinel `0`; `handle = some g` models returning the (nonzero)
pointer to a record whose `graph_id` field is `g`.  The `...Live` fields say
which native resources remain allocated when the function returns. -/
structure CreateOut where
  handle : Option ZLGraph := none
  err : Option JniError := none
  recordLive : Bool := false
  ctxLive : Bool := false
  compressorLive : Bool := false

/-- Embedding of `Java_net_openzl_OpenZLJNI_createCompressor` (source lines 119-218).
Each branch mirrors one early `return 0` of the C code, recording exactly
the resources that remain allocated there. -/
def createCompressor (env : CreateEnv) (graph_id : Int) : CreateOut :=
  if env.mallocRecordOk = false then
    { err := some JniError.outOfMemory }
  else if env.cctxCreateOk = false then
    { err := some (JniError.nativeError ("Failed to create compression context")) }
  else if env.compressorCreateOk = false then
    { err := some (JniError.nativeError ("Failed to create compressor object")) }
  else
    match env.setFormatVersionErr with
    | some c => { err := some (JniError.nativeError (env.errStr c)) }
    | none =>
      match env.setCompressionLevelErr with
      | some c => { err := some (JniError.nativeError (env.errStr c)) }
      | none =>
        match env.selectStartingGraphErr with
        | some c => { err := some (JniError.nativeError (env.errStr c)) }
        | none =>
          match env.refCompressorErr with
          | some c => { err := some (JniError.nativeError (env.errStr c)) }
          | none =>
            { handle := some (selectGraph graph_id)
              recordLive := true
              ctxLive := true
              compressorLive := true }

/-- Environment for `compressSerial`: `compressBound` models
`ZL_compressBound`; `compress inp cap` models `ZL_CCtx_compressTypedRef`
over the input window `inp` into a destination of capacity `cap`, yielding
either an error code or the bytes written. -/
structure SCEnv where
  compressBound : Nat → Nat
  pinSrcOk : Bool
  mallocOk : Bool
  typedRefOk : Bool
  compress : List Nat → Nat → Except Nat (List Nat)
  newArrayOk : Bool
  errStr : Nat → String

/-- Outcome of `compressSerial`.  `ret = none` models returning `NULL`;
`srcPinned` records that `GetByteArrayElements(src)` succeeded and
`srcReleases` the modes of the `ReleaseByteArrayElements(src, ...)` calls
performed; `reportedSize` is `ZL_validResult` of a successful compress. -/
structure SCOut where
  ret : Option (List Nat) := none
  err : Option JniError := none
  srcPinned : Bool := false
  srcReleases : List ReleaseMode := []
  scratchAllocated : Bool := false
  scratchFreed : Bool := false
  typedRefCreated : Bool := false
  typedRefFreed : Bool := false
  compressCalled : Bool := false
  reportedSize : Option Nat := none

/-- Embedding of `Java_net_openzl_OpenZLJNI_compressSerial` (source lines 278-340).
The scratch buffer has capacity `ZL_compressBound(src_len)` and the typed
reference covers the window `src[src_off ..+ src_len]`. -/
def compressSerial (env : SCEnv) (id : Int) (src : List Nat) (off len : Nat) : SCOut :=
  if id = 0 then
    { err := some JniError.invalidHandle }
  else if env.pinSrcOk = false then
    { err := some JniError.outOfMemory }
  else if env.mallocOk = false then
    { err := some JniError.outOfMemory
      srcPinned := true
      srcReleases := [ReleaseMode.abort] }
  else if env.typedRefOk = false then
    { err := some (JniError.nativeError ("[Error OpenZL JNI] Failed to create typed reference for serial data"))
      srcPinned := true
      srcReleases := [ReleaseMode.abort]
      scratchAllocated := true
      scratchFreed := true }
  else
    match env.compress ((src.drop off).take len) (env.compressBound len) with
    | Except.error c =>
      { err := some (JniError.nativeError (env.errStr c))
        srcPinned := true
        srcReleases := [ReleaseMode.abort]
        scratchAllocated := true
        scratchFreed := true
        typedRefCreated := true
        typedRefFreed := true
        compressCalled := true }
    | Except.ok out =>
      if env.newArrayOk = false then
        { err := some JniError.outOfMemory
          srcPinned := true
          srcReleases := [ReleaseMode.abort]
          scratchAllocated := true
          scratchFreed := true
          typedRefCreated := true
          typedRefFreed := true
          compressCalled := true
          reportedSize := some out.length }
      else
        { ret := some out
          srcPinned := true
          srcReleases := [ReleaseMode.abort]
          scratchAllocated := true
          scratchFreed := true
          typedRefCreated := true
          typedRefFreed := true
          compressCalled := true
          reportedSize := some out.length }

/-- Environment for `compressSerialToBuffer`. -/
structure SBEnv where
  pinSrcOk : Bool
  pinDestOk : Bool
  typedRefOk : Bool
  compress : List Nat → Nat → Except Nat (List Nat)
  errStr : Nat → String

/-- Outcome of `compressSerialToBuffer`; `ret` is the `jint` returned
(`-1` on every error path). -/
structure SBOut where
  ret : Int := -1
  err : Option JniError := none
  srcPinned : Bool := false
  srcReleases : List ReleaseMode := []
  destPinned : Bool := false
  destReleases : List ReleaseMode := []
  typedRefCreated : Bool := false
  typedRefFreed : Bool := false
  compressCalled : Bool := false

/-- Embedding of `Java_net_openzl_OpenZLJNI_compressSerialToBuffer` (source lines
347-394).  Both arrays are pinned before the joint `NULL` check; on that
check's failure whichever pin succeeded is released with `JNI_ABORT`, and on
the typed-reference failure both are released with `JNI_ABORT`.  After the
native compress call `src` is released with `JNI_ABORT` and `dest` with
mode `0` (commit). -/
def compressSerialToBuffer (env : SBEnv) (id : Int) (src : List Nat) (off len : Nat)
    (dest : List Nat) (destOff maxDestLen : Nat) : SBOut :=
  if id = 0 then
    { err := some JniError.invalidHandle }
  else if env.pinSrcOk = false ∨ env.pinDestOk = false then
    { err := some JniError.outOfMemory
      srcPinned := env.pinSrcOk
      srcReleases := if env.pinSrcOk then [ReleaseMode.abort] else []
      destPinned := env.pinDestOk
      destReleases := if env.pinDestOk then [ReleaseMode.abort] else [] }
  else if env.typedRefOk = false then
    { err := some (JniError.nativeError ("[Error OpenZL JNI] Failed to create typed reference"))
      srcPinned := true
      srcReleases := [ReleaseMode.abort]
      destPinned := true
      destReleases := [ReleaseMode.abort] }
  else
    match env.compress ((src.drop off).take len) maxDestLen with
    | Except.error c =>
      { err := some (JniError.nativeError (env.errStr c))
        srcPinned := true
        srcReleases := [ReleaseMode.abort]
        destPinned := true
        destReleases := [ReleaseMode.commit]
        typedRefCreated := true
        typedRefFreed := true
        compressCalled := true }
    | Except.ok out =>
      { ret := (out.length : Int)
        srcPinned := true
        srcReleases := [ReleaseMode.abort]
        destPinned := true
        destReleases := [ReleaseMode.commit]
        typedRefCreated := true
        typedRefFreed := true
        compressCalled := true }

/-- Environment for `decompressSerial`: `sizeQuery` models
`ZL_getDecompressedSize` on the source window; `decompress inp cap` models
`ZL_decompress` into a destination of capacity `cap`, yielding the bytes
produced. -/
structure DSEnv where
  pinSrcOk : Bool
  sizeQuery : List Nat → Except Nat Nat
  mallocOk : Bool
  decompress : List Nat → Nat → Except Nat (List Nat)
  newArrayOk : Bool
  errStr : Nat → String

/-- Outcome of `decompressSerial`. -/
structure DSOut where
  ret : Option (List Nat) := none
  err : Option JniError := none
  srcPinned : Bool := false
  srcReleases : List ReleaseMode := []
  scratchAllocated : Bool := false
  scratchFreed : Bool := false
  sizeQueried : Bool := false
  decompressCalled : Bool := false

/-- Embedding of `Java_net_openzl_OpenZLJNI_decompressSerial` (source lines 681-739).
Scratch is sized by the decompressed-size query; the managed result holds
the bytes the native decompress produced. -/
def decompressSerial (env : DSEnv) (id : Int) (src : List Nat) (off len : Nat) : DSOut :=
  if id = 0 then
    { err := some JniError.invalidHandle }
  else if env.pinSrcOk = false then
    { err := some JniError.outOfMemory }
  else
    match env.sizeQuery ((src.drop off).take len) with
    | Except.error c =>
      { err := some (JniError.nativeError (env.errStr c))
        srcPinned := true
        srcReleases := [ReleaseMode.abort]
        sizeQueried := true }
    | Except.ok n =>
      if env.mallocOk = false then
        { err := some JniError.outOfMemory
          srcPinned := true
          srcReleases := [ReleaseMode.abort]
          sizeQueried := true }
      else
        match env.decompress ((src.drop off).take len) n with
        | Except.error c =>
          { err := some (JniError.nativeError (env.errStr c))
            srcPinned := true
            srcReleases := [ReleaseMode.abort]
            sizeQueried := true
            scratchAllocated := true
            scratchFreed := true
            decompressCalled := true }
        | Except.ok outBytes =>
          if env.newArrayOk = false then
            { err := some JniError.outOfMemory
              srcPinned := true
              srcReleases := [ReleaseMode.abort]
              sizeQueried := true
              scratchAllocated := true
              scratchFreed := true
              decompressCalled := true }
          else
            { ret := some outBytes
              srcPinned := true
              srcReleases := [ReleaseMode.abort]
              sizeQueried := true
              scratchAllocated := true
              scratchFreed := true
              decompressCalled := true }

/-- Environment for `decompressSerialToBuffer`. -/
structure DBEnv where
  pinSrcOk : Bool
  pinDestOk : Bool
  decompress : List Nat → Nat → Except Nat (List Nat)
  errStr : Nat → String

/-- Outcome of `decompressSerialToBuffer`; `ret` is the `jint` returned
(`-1` on every error path). -/
structure DBOut where
  ret : Int := -1
  err : Option JniError := none
  srcPinned : Bool := false
  srcReleases : List ReleaseMode := []
  destPinned : Bool := false
  destReleases : List ReleaseMode := []
  decompressCalled : Bool := false

/-- Embedding of `Java_net_openzl_OpenZLJNI_decompressSerialToBuffer` (source lines
746-783).  No size query: `ZL_decompress` goes straight into the caller's
buffer with capacity `max_dest_len`.  After it, `src` is released with
`JNI_ABORT` and `dest` with mode `0` (commit) on success and native-failure
paths alike. -/
def decompressSerialToBuffer (env : DBEnv) (id : Int) (src : List Nat) (off len : Nat)
    (dest : List Nat) (destOff maxDestLen : Nat) : DBOut :=
  if id = 0 then
    { err := some JniError.invalidHandle }
  else if env.pinSrcOk = false then
    { err := some JniError.outOfMemory }
  else if env.pinDestOk = false then
    { err := some JniError.outOfMemory
      srcPinned := true
      srcReleases := [ReleaseMode.abort] }
  else
    match env.decompress ((src.drop off).take len) maxDestLen with
    | Except.error c =>
      { err := some (JniError.nativeError (env.errStr c))
        srcPinned := true
        srcReleases := [ReleaseMode.abort]
        destPinned := true
        destReleases := [ReleaseMode.commit]
        decompressCalled := true }
    | Except.ok outBytes =>
      { ret := (outBytes.length : Int)
        srcPinned := true
        srcReleases := [ReleaseMode.abort]
        destPinned := true
        destReleases := [ReleaseMode.commit]
        decompressCalled := true }

/-- Environment for `decompressNumericInts`: `decompressTyped inp cap`
models `ZL_DCtx_decompressTyped` into a destination of capacity `cap`,
yielding the output info's `numElts` together with the bytes written. -/
structure NIEnv where
  pinSrcOk : Bool
  sizeQuery : List Nat → Except Nat Nat
  mallocOk : Bool
  decompressTyped : List Nat → Nat → Except Nat (Nat × List Nat)
  newArrayOk : Bool
  errStr : Nat → String

/-- Outcome of `decompressNumericInts`.  `ret` is the length of the managed
int array returned (`none` models `NULL`); `queriedSize` the scratch size
obtained from `ZL_getDecompressedSize`; `numElts` the `outputInfo.numElts`
of a successful typed decompress; `copiedBytes` the number of bytes
`SetIntArrayRegion` copied out of the scratch buffer. -/
structure NIOut where
  ret : Option Nat := none
  err : Option JniError := none
  srcPinned : Bool := false
  srcReleases : List ReleaseMode := []
  scratchAllocated : Bool := false
  scratchFreed : Bool := false
  sizeQueried : Bool := false
  decompressCalled : Bool := false
  queriedSize : Option Nat := none
  numElts : Option Nat := none
  copiedBytes : Option Nat := none

/-- Embedding of `Java_net_openzl_OpenZLJNI_decompressNumericInts` (source lines
790-851).  The result array is sized to `outputInfo.numElts` and
`SetIntArrayRegion(result, 0, array_len, decompressed_data)` copies
`array_len * sizeof(jint)` = `numElts * 4` bytes from the scratch buffer,
with no comparison of `numElts * 4` against the queried scratch size. -/
def decompressNumericInts (env : NIEnv) (id : Int) (src : List Nat) : NIOut :=
  if id = 0 then
    { err := some JniError.invalidHandle }
  else if env.pinSrcOk = false then
    { err := some JniError.outOfMemory }
  else
    match env.sizeQuery src with
    | Except.error c =>
      { err := some (JniError.nativeError (env.errStr c))
        srcPinned := true
        srcReleases := [ReleaseMode.abort]
        sizeQueried := true }
    | Except.ok n =>
      if env.mallocOk = false then
        { err := some JniError.outOfMemory
          srcPinned := true
          srcReleases := [ReleaseMode.abort]
          sizeQueried := true
          queriedSize := some n }
      else
        match env.decompressTyped src n with
        | Except.error c =>
          { err := some (JniError.nativeError (env.errStr c))
            srcPinned := true
            srcReleases := [ReleaseMode.abort]
            sizeQueried := true
            queriedSize := some n
            scratchAllocated := true
            scratchFreed := true
            decompressCalled := true }
        | Except.ok kout =>
          if env.newArrayOk = false then
            { err := some JniError.outOfMemory
              srcPinned := true
              srcReleases := [ReleaseMode.abort]
              sizeQueried := true
              queriedSize := some n
              scratchAllocated := true
              scratchFreed := true
              decompressCalled := true
              numElts := some kout.1 }
          else
            { ret := some kout.1
              srcPinned := true
              srcReleases := [ReleaseMode.abort]
              sizeQueried := true
              queriedSize := some n
              scratchAllocated := true
              scratchFreed := true
              decompressCalled := true
              numElts := some kout.1
              copiedBytes := some (kout.1 * 4) }

/-- The `data_type_str` switch of `getCompressionInfo` (source lines
1124-1140), in the source's case order `0, 2, 1, 3, default`. -/
def dataTypeOf (t : Int) : String :=
  if t = 0 then "SERIAL"
  else if t = 2 then "NUMERIC"
  else if t = 1 then "STRUCT"
  else if t = 3 then "STRING"
  else "UNKNOWN"

/-- The `graph_id` switch of `getCompressionInfo` (source lines 1170-1182):
output type `2` (NUMERIC) maps to graph id `1`, every other output type
(`0`, `1`, `3` and the default) to graph id `0`. -/
def graphIdOf (t : Int) : Int :=
  if t = 2 then 1
  else if t = 0 then 0
  else 0

/-- The payload `getCompressionInfo` hands to the `CompressionInfo`
constructor; `graphId` is the integer passed to `CompressionGraph.fromId`. -/
structure CompressionInfo where
  decompressedSize : Nat
  compressedSize : Nat
  graphId : Int
  dataType : String
deriving DecidableEq

/-- Environment for `getCompressionInfo`: one field per fallible native or
JNI-runtime step, in call order. -/
structure GIEnv where
  pinOk : Bool
  getCompressedSize : List Nat → Except Nat Nat
  frameInfoOk : Bool
  frameDecompressedSize : Except Nat Nat
  frameOutputType : Except Nat Int
  findInfoClassOk : Bool
  infoCtorOk : Bool
  findGraphClassOk : Bool
  fromIdFound : Bool
  fromIdOk : Bool
  newStringOk : Bool
  newObjectOk : Bool

/-- Outcome of `getCompressionInfo`. -/
structure GIOut where
  ret : Option CompressionInfo := none
  err : Option JniError := none
  pinned : Bool := false
  pinReleases : List ReleaseMode := []
  frameInfoCreated : Bool := false
  frameInfoFreed : Bool := false
  nativeCalled : Bool := false

/-- Embedding of `Java_net_openzl_OpenZLJNI_getCompressionInfo` (source lines
1070-1203).  The input is `none` for a Java `null` argument, `some bytes`
otherwise.  The null check and the empty check run before any pinning or
native call; the frame queries run under the pin; the pin and the frame
info are released before the JNI reflection steps that build the managed
`CompressionInfo` object. -/
def getCompressionInfo (env : GIEnv) (input : Option (List Nat)) : GIOut :=
  match input with
  | none =>
    { err := some (JniError.illegalArgument ("[Error OpenZL JNI] Compressed data cannot be null")) }
  | some bytes =>
    if bytes.length = 0 then
      { err := some (JniError.nativeError ("[Error OpenZL JNI] Compressed data is empty")) }
    else if env.pinOk = false then
      { err := some JniError.outOfMemory }
    else
      match env.getCompressedSize bytes with
      | Except.error _ =>
        { err := some (JniError.nativeError ("[Error OpenZL JNI] Failed to get compressed size"))
          pinned := true
          pinReleases := [ReleaseMode.abort]
          nativeCalled := true }
      | Except.ok cs =>
        if env.frameInfoOk = false then
          { err := some (JniError.nativeError ("[Error OpenZL JNI] Failed to create frame info"))
            pinned := true
            pinReleases := [ReleaseMode.abort]
            nativeCalled := true }
        else
          match env.frameDecompressedSize with
          | Except.error _ =>
            { err := some (JniError.nativeError ("[Error OpenZL JNI] Failed to get decompressed size"))
              pinned := true
              pinReleases := [ReleaseMode.abort]
              nativeCalled := true
              frameInfoCreated := true
              frameInfoFreed := true }
          | Except.ok ds =>
            match env.frameOutputType with
            | Except.error _ =>
              { err := some (JniError.nativeError ("[Error OpenZL JNI] Failed to get output type"))
                pinned := true
                pinReleases := [ReleaseMode.abort]
                nativeCalled := true
                frameInfoCreated := true
                frameInfoFreed := true }
            | Except.ok t =>
              if env.findInfoClassOk = false then
                { err := some (JniError.nativeError ("[Error OpenZL JNI] Failed to find CompressionInfo class"))
                  pinned := true
                  pinReleases := [ReleaseMode.abort]
                  nativeCalled := true
                  frameInfoCreated := true
                  frameInfoFreed := true }
              else if env.infoCtorOk = false then
                { err := some (JniError.nativeError ("[Error OpenZL JNI] Failed to find CompressionInfo constructor"))
                  pinned := true
                  pinReleases := [ReleaseMode.abort]
                  nativeCalled := true
                  frameInfoCreated := true
                  frameInfoFreed := true }
              else if env.findGraphClassOk = false then
                { err := some (JniError.nativeError ("[Error OpenZL JNI] Failed to find CompressionGraph class"))
                  pinned := true
                  pinReleases := [ReleaseMode.abort]
                  nativeCalled := true
                  frameInfoCreated := true
                  frameInfoFreed := true }
              else if env.fromIdFound = false then
                { err := some (JniError.nativeError ("[Error OpenZL JNI] Failed to find CompressionGraph.fromId method"))
                  pinned := true
                  pinReleases := [ReleaseMode.abort]
                  nativeCalled := true
                  frameInfoCreated := true
                  frameInfoFreed := true }
              else if env.fromIdOk = false then
                { err := some (JniError.nativeError ("[Error OpenZL JNI] Failed to create CompressionGraph object"))
                  pinned := true
                  pinReleases := [ReleaseMode.abort]
                  nativeCalled := true
                  frameInfoCreated := true
                  frameInfoFreed := true }
              else if env.newStringOk = false then
                { err := some JniError.outOfMemory
                  pinned := true
                  pinReleases := [ReleaseMode.abort]
                  nativeCalled := true
                  frameInfoCreated := true
                  frameInfoFreed := true }
              else if env.newObjectOk = false then
                { ret := none
                  err := none
                  pinned := true
                  pinReleases := [ReleaseMode.abort]
                  nativeCalled := true
                  frameInfoCreated := true
                  frameInfoFreed := true }
              else
                { ret := some { decompressedSize := ds
                                compressedSize := cs
                                graphId := graphIdOf t
                                dataType := dataTypeOf t }
                  pinned := true
                  pinReleases := [ReleaseMode.abort]
                  nativeCalled := true
                  frameInfoCreated := true
                  frameInfoFreed := true }

/-- Concrete environment for the C1 witness: every step up to and including
descriptor creation succeeds, then `ZL_CCtx_refCompressor` fails. -/
def c1Env : CreateEnv :=
  { mallocRecordOk := true
    cctxCreateOk := true
    compressorCreateOk := true
    setFormatVersionErr := none
    setCompressionLevelErr := none
    selectStartingGraphErr := none
    refCompressorErr := some 3
    errStr := fun _ => "Allocation error" }

/-- C1: for every graph code, if any step of `createCompressor` fails after
the native compression context exists, then every native resource created
so far (context, descriptor) and the handle record are released before the
failure is reported, the operation returns the sentinel `0` (modelled as
`handle = none`), and no partial handle escapes. -/
theorem createCompressor_failure_cleanup (env : CreateEnv) (g : Int)
    (hctx : env.cctxCreateOk = true)
    (hfail : (createCompressor env g).err ≠ none) :
    (createCompressor env g).handle = none ∧
    (createCompressor env g).recordLive = false ∧
    (createCompressor env g).ctxLive = false ∧
    (createCompressor env g).compressorLive = false := by
  revert hfail
  unfold createCompressor
  repeat' split
  all_goals simp

/-- Witness for C1 at the concrete environment `c1Env` and graph code 0. -/
theorem createCompressor_failure_cleanup_witness :
    (createCompressor c1Env 0).handle = none ∧
    (createCompressor c1Env 0).recordLive = false ∧
    (createCompressor c1Env 0).ctxLive = false ∧
    (createCompressor c1Env 0).compressorLive = false :=
  createCompressor_failure_cleanup c1Env 0 rfl (by simp [createCompressor, c1Env])

set_option maxHeartbeats 1000000 in
/-- C3: `createCompressor` maps `graph_code` to a pipeline exactly per the
graph selection table: 0 and every unknown code select the ZSTD fallback;
1 and 9 both select the generic compress pipeline; 2 Field-LZ; 3 Store;
4 FSE; 5 Huffman; 6 general entropy; 7 bitpacking; 8 constant-value.  The
right-hand side is the spec's table, the left-hand side the code's switch. -/
theorem selectGraph_table (g : Int) :
    selectGraph g =
      (if g = 0 then ZLGraph.zstd
       else if g = 1 ∨ g = 9 then ZLGraph.compressGeneric
       else if g = 2 then ZLGraph.fieldLz
       else if g = 3 then ZLGraph.store
       else if g = 4 then ZLGraph.fse
       else if g = 5 then ZLGraph.huffman
       else if g = 6 then ZLGraph.entropy
       else if g = 7 then ZLGraph.bitpack
       else if g = 8 then ZLGraph.constant
       else ZLGraph.zstd) := by
  unfold selectGraph
  split_ifs <;> simp_all

/-- C4: every compress and decompress operation invoked with handle id `0`
raises INVALID_HANDLE before touching any resource (no array pinned, no
scratch allocated, no native call reached) and returns the sentinel
appropriate to the operation: `NULL` (modelled `none`) for new-array
variants and `-1` for the `_to_buffer` variants. -/
theorem zero_handle_sentinel (scEnv : SCEnv) (sbEnv : SBEnv) (dsEnv : DSEnv)
    (dbEnv : DBEnv) (niEnv : NIEnv) (src dest : List Nat) (off len destOff maxLen : Nat) :
    ((compressSerial scEnv 0 src off len).err = some JniError.invalidHandle ∧
     (compressSerial scEnv 0 src off len).ret = none ∧
     (compressSerial scEnv 0 src off len).srcPinned = false ∧
     (compressSerial scEnv 0 src off len).scratchAllocated = false ∧
     (compressSerial scEnv 0 src off len).compressCalled = false) ∧
    ((compressSerialToBuffer sbEnv 0 src off len dest destOff maxLen).err = some JniError.invalidHandle ∧
     (compressSerialToBuffer sbEnv 0 src off len dest destOff maxLen).ret = -1 ∧
     (compressSerialToBuffer sbEnv 0 src off len dest destOff maxLen).srcPinned = false ∧
     (compressSerialToBuffer sbEnv 0 src off len dest destOff maxLen).destPinned = false ∧
     (compressSerialToBuffer sbEnv 0 src off len dest destOff maxLen).compressCalled = false) ∧
    ((decompressSerial dsEnv 0 src off len).err = some JniError.invalidHandle ∧
     (decompressSerial dsEnv 0 src off len).ret = none ∧
     (decompressSerial dsEnv 0 src off len).srcPinned = false ∧
     (decompressSerial dsEnv 0 src off len).scratchAllocated = false ∧
     (decompressSerial dsEnv 0 src off len).sizeQueried = false ∧
     (decompressSerial dsEnv 0 src off len).decompressCalled = false) ∧
    ((decompressSerialToBuffer dbEnv 0 src off len dest destOff maxLen).err = some JniError.invalidHandle ∧
     (decompressSerialToBuffer dbEnv 0 src off len dest destOff maxLen).ret = -1 ∧
     (decompressSerialToBuffer dbEnv 0 src off len dest destOff maxLen).srcPinned = false ∧
     (decompressSerialToBuffer dbEnv 0 src off len dest destOff maxLen).destPinned = false ∧
     (decompressSerialToBuffer dbEnv 0 src off len dest destOff maxLen).decompressCalled = false) ∧
    ((decompressNumericInts niEnv 0 src).err = some JniError.invalidHandle ∧
     (decompressNumericInts niEnv 0 src).ret = none ∧
     (decompressNumericInts niEnv 0 src).srcPinned = false ∧
     (decompressNumericInts niEnv 0 src).scratchAllocated = false ∧
     (decompressNumericInts niEnv 0 src).sizeQueried = false ∧
     (decompressNumericInts niEnv 0 src).decompressCalled = false) := by
  simp [compressSerial, compressSerialToBuffer, decompressSerial,
        decompressSerialToBuffer, decompressNumericInts]

/-- C9: `getCompressionInfo` raises ILLEGAL_ARGUMENT when its input is the
Java `null` and NATIVE_ERROR when its input is a zero-length array, in both
cases returning the null sentinel and performing no native work (no pin, no
native call, no frame-info descriptor). -/
theorem getCompressionInfo_rejects_null_empty (env : GIEnv) :
    ((getCompressionInfo env none).err = some (JniError.illegalArgument ("[Error OpenZL JNI] Compressed data cannot be null")) ∧
     (getCompressionInfo env none).ret = none ∧
     (getCompressionInfo env none).pinned = false ∧
     (getCompressionInfo env none).nativeCalled = false ∧
     (getCompressionInfo env none).frameInfoCreated = false) ∧
    ((getCompressionInfo env (some [])).err = some (JniError.nativeError ("[Error OpenZL JNI] Compressed data is empty")) ∧
     (getCompressionInfo env (some [])).ret = none ∧
     (getCompressionInfo env (some [])).pinned = false ∧
     (getCompressionInfo env (some [])).nativeCalled = false ∧
     (getCompressionInfo env (some [])).frameInfoCreated = false) := by
  simp [getCompressionInfo]

/-- A `getCompressionInfo` environment in which every native and JNI step
succeeds, reporting compressed size `cs`, decompressed size `ds` and output
type `t`. -/
def giHappy (cs ds : Nat) (t : Int) : GIEnv :=
  { pinOk := true
    getCompressedSize := fun _ => Except.ok cs
    frameInfoOk := true
    frameDecompressedSize := Except.ok ds
    frameOutputType := Except.ok t
    findInfoClassOk := true
    infoCtorOk := true
    findGraphClassOk := true
    fromIdFound := true
    fromIdOk := true
    newStringOk := true
    newObjectOk := true }

/-- C8: on a successful introspection reporting output type `t`,
`getCompressionInfo` maps `t` to the `data_type` string per the table
`0 SERIAL, 1 STRUCT, 2 NUMERIC, 3 STRING, otherwise UNKNOWN`, and maps the
graph tag so that the NUMERIC output type (`2`) yields the generic-numeric
tag (`CompressionGraph.fromId(1)`) while every other output type yields the
default serial tag (`CompressionGraph.fromId(0)`).  The right-hand side
states the claim's table directly. -/
theorem getCompressionInfo_type_graph_mapping (cs ds : Nat) (t : Int) :
    (getCompressionInfo (giHappy cs ds t) (some [1])).ret =
      some { decompressedSize := ds
             compressedSize := cs
             graphId := if t = 2 then 1 else 0
             dataType := if t = 0 then "SERIAL"
                         else if t = 1 then "STRUCT"
                         else if t = 2 then "NUMERIC"
                         else if t = 3 then "STRING"
                         else "UNKNOWN" } := by
  simp only [getCompressionInfo, giHappy, graphIdOf, dataTypeOf]
  norm_num
  split_ifs <;> simp_all

/-- Release pairing of `compressSerial`: the source pin, when acquired, is
released exactly once, in discard-writes mode. -/
theorem compressSerial_src_pairing (env : SCEnv) (id : Int) (src : List Nat) (off len : Nat) :
    (compressSerial env id src off len).srcReleases =
      (if (compressSerial env id src off len).srcPinned then [ReleaseMode.abort] else []) := by
  unfold compressSerial
  repeat' split
  all_goals simp_all

theorem compressSerialToBuffer_src_pairing (env : SBEnv) (id : Int) (src dest : List Nat)
    (off len destOff maxLen : Nat) :
    (compressSerialToBuffer env id src off len dest destOff maxLen).srcReleases =
      (if (compressSerialToBuffer env id src off len dest destOff maxLen).srcPinned then [ReleaseMode.abort] else []) := by
  unfold compressSerialToBuffer
  repeat' split
  all_goals simp_all

theorem compressSerialToBuffer_dest_pairing (env : SBEnv) (id : Int) (src dest : List Nat)
    (off len destOff maxLen : Nat) :
    (compressSerialToBuffer env id src off len dest destOff maxLen).destReleases =
      (if (compressSerialToBuffer env id src off len dest destOff maxLen).destPinned then
        (if (compressSerialToBuffer env id src off len dest destOff maxLen).compressCalled then
          [ReleaseMode.commit]
         else [ReleaseMode.abort])
       else []) := by
  unfold compressSerialToBuffer
  repeat' split
  all_goals simp_all

theorem decompressSerial_src_pairing (env : DSEnv) (id : Int) (src : List Nat) (off len : Nat) :
    (decompressSerial env id src off len).srcReleases =
      (if (decompressSerial env id src off len).srcPinned then [ReleaseMode.abort] else []) := by
  unfold decompressSerial
  repeat' split
  all_goals simp_all

theorem decompressSerialToBuffer_src_pairing (env : DBEnv) (id : Int) (src dest : List Nat)
    (off len destOff maxLen : Nat) :
    (decompressSerialToBuffer env id src off len dest destOff maxLen).srcReleases =
      (if (decompressSerialToBuffer env id src off len dest destOff maxLen).srcPinned then [ReleaseMode.abort] else []) := by
  unfold decompressSerialToBuffer
  repeat' split
  all_goals simp_all

theorem decompressSerialToBuffer_dest_pairing (env : DBEnv) (id : Int) (src dest : List Nat)
    (off len destOff maxLen : Nat) :
    (decompressSerialToBuffer env id src off len dest destOff maxLen).destReleases =
      (if (decompressSerialToBuffer env id src off len dest destOff maxLen).destPinned then [ReleaseMode.commit] else []) := by
  unfold decompressSerialToBuffer
  repeat' split
  all_goals simp_all

theorem decompressNumericInts_src_pairing (env : NIEnv) (id : Int) (src : List Nat) :
    (decompressNumericInts env id src).srcReleases =
      (if (decompressNumericInts env id src).srcPinned then [ReleaseMode.abort] else []) := by
  unfold decompressNumericInts
  repeat' split
  all_goals simp_all

/-- C2 (amended): in every modelled compress and decompress operation, each
pinned array region is released exactly once on every control path; input
arrays are always released in discard-writes mode (`JNI_ABORT`); the
destination output array of `compressSerialToBuffer` is released in
commit-writes mode on every path that reaches the native compress call, but
in discard-writes mode on the failure paths before it (pin failure of the
other array, typed-reference failure); the destination of
`decompressSerialToBuffer` is released in commit-writes mode whenever it
was pinned. -/
theorem pin_release_discipline (scEnv : SCEnv) (sbEnv : SBEnv) (dsEnv : DSEnv)
    (dbEnv : DBEnv) (niEnv : NIEnv) (id : Int) (src dest : List Nat)
    (off len destOff maxLen : Nat) :
    ((compressSerial scEnv id src off len).srcReleases =
      (if (compressSerial scEnv id src off len).srcPinned then [ReleaseMode.abort] else [])) ∧
    ((compressSerialToBuffer sbEnv id src off len dest destOff maxLen).srcReleases =
      (if (compressSerialToBuffer sbEnv id src off len dest destOff maxLen).srcPinned then [ReleaseMode.abort] else [])) ∧
    ((compressSerialToBuffer sbEnv id src off len dest destOff maxLen).destReleases =
      (if (compressSerialToBuffer sbEnv id src off len dest destOff maxLen).destPinned then
        (if (compressSerialToBuffer sbEnv id src off len dest destOff maxLen).compressCalled then
          [ReleaseMode.commit]
         else [ReleaseMode.abort])
       else [])) ∧
    ((decompressSerial dsEnv id src off len).srcReleases =
      (if (decompressSerial dsEnv id src off len).srcPinned then [ReleaseMode.abort] else [])) ∧
    ((decompressSerialToBuffer dbEnv id src off len dest destOff maxLen).srcReleases =
      (if (decompressSerialToBuffer dbEnv id src off len dest destOff maxLen).srcPinned then [ReleaseMode.abort] else [])) ∧
    ((decompressSerialToBuffer dbEnv id src off len dest destOff maxLen).destReleases =
      (if (decompressSerialToBuffer dbEnv id src off len dest destOff maxLen).destPinned then [ReleaseMode.commit] else [])) ∧
    ((decompressNumericInts niEnv id src).srcReleases =
      (if (decompressNumericInts niEnv id src).srcPinned then [ReleaseMode.abort] else [])) := by
  exact ⟨compressSerial_src_pairing scEnv id src off len,
         compressSerialToBuffer_src_pairing sbEnv id src dest off len destOff maxLen,
         compressSerialToBuffer_dest_pairing sbEnv id src dest off len destOff maxLen,
         decompressSerial_src_pairing dsEnv id src off len,
         decompressSerialToBuffer_src_pairing dbEnv id src dest off len destOff maxLen,
         decompressSerialToBuffer_dest_pairing dbEnv id src dest off len destOff maxLen,
         decompressNumericInts_src_pairing niEnv id src⟩

/-- Concrete environment for the C2 counterexample: both pins succeed and
`ZL_TypedRef_createSerial` fails. -/
def c2Env : SBEnv :=
  { pinSrcOk := true
    pinDestOk := true
    typedRefOk := false
    compress := fun _ _ => Except.error 0
    errStr := fun _ => "GENERIC" }

/-- C2 counterexample: on the typed-reference failure path of
`compressSerialToBuffer` the destination output array is pinned yet
released with `JNI_ABORT` (discard writes), not in commit-writes mode, so
the claim that destination arrays are released with commit on every path
fails. -/
theorem dest_released_discarding_counterexample :
    (compressSerialToBuffer c2Env 1 [1] 0 1 [0, 0] 0 2).destPinned = true ∧
    (compressSerialToBuffer c2Env 1 [1] 0 1 [0, 0] 0 2).destReleases = [ReleaseMode.abort] ∧
    (compressSerialToBuffer c2Env 1 [1] 0 1 [0, 0] 0 2).destReleases ≠ [ReleaseMode.commit] := by
  refine ⟨rfl, rfl, ?_⟩
  decide

/-- Returns `true` exactly on the INVALID_HANDLE failure. -/
def errIsInvalidHandle : Option JniError → Bool
  | some JniError.invalidHandle => true
  | _ => false

/-- Concrete environment for the C5 counterexample. -/
def c5Env : DSEnv :=
  { pinSrcOk := true
    sizeQuery := fun _ => Except.error 0
    mallocOk := true
    decompress := fun _ _ => Except.error 0
    newArrayOk := true
    errStr := fun _ => "GENERIC" }

/-- C5 counterexample: invoking `decompressSerial` with the negative handle
id `-1` does not fail with INVALID_HANDLE: the code checks `ptr == 0` only,
so the negative id passes the check and the call proceeds (the source array
gets pinned). -/
theorem negative_handle_not_rejected :
    errIsInvalidHandle (decompressSerial c5Env (-1) [0] 0 1).err = false ∧
    (decompressSerial c5Env (-1) [0] 0 1).srcPinned = true := by
  constructor <;> rfl

/-- INVALID_HANDLE characterization for `decompressSerial`. -/
theorem decompressSerial_invalid_handle (env : DSEnv) (id : Int) (src : List Nat) (off len : Nat) :
    errIsInvalidHandle (decompressSerial env id src off len).err = decide (id = 0) := by
  unfold decompressSerial
  repeat' split
  all_goals simp_all [errIsInvalidHandle]

/-- INVALID_HANDLE characterization for `decompressSerialToBuffer`. -/
theorem decompressSerialToBuffer_invalid_handle (env : DBEnv) (id : Int) (src dest : List Nat)
    (off len destOff maxLen : Nat) :
    errIsInvalidHandle (decompressSerialToBuffer env id src off len dest destOff maxLen).err = decide (id = 0) := by
  unfold decompressSerialToBuffer
  repeat' split
  all_goals simp_all [errIsInvalidHandle]

/-- INVALID_HANDLE characterization for `decompressNumericInts`. -/
theorem decompressNumericInts_invalid_handle (env : NIEnv) (id : Int) (src : List Nat) :
    errIsInvalidHandle (decompressNumericInts env id src).err = decide (id = 0) := by
  unfold decompressNumericInts
  repeat' split
  all_goals simp_all [errIsInvalidHandle]

/-- C5 (amended): across the decompress operations, INVALID_HANDLE is
raised exactly when the handle id is zero; a negative id is not rejected
and is interpreted as a pointer value. -/
theorem invalid_handle_iff_zero (dsEnv : DSEnv) (dbEnv : DBEnv) (niEnv : NIEnv)
    (id : Int) (src dest : List Nat) (off len destOff maxLen : Nat) :
    errIsInvalidHandle (decompressSerial dsEnv id src off len).err = decide (id = 0) ∧
    errIsInvalidHandle (decompressSerialToBuffer dbEnv id src off len dest destOff maxLen).err = decide (id = 0) ∧
    errIsInvalidHandle (decompressNumericInts niEnv id src).err = decide (id = 0) := by
  exact ⟨decompressSerial_invalid_handle dsEnv id src off len,
         decompressSerialToBuffer_invalid_handle dbEnv id src dest off len destOff maxLen,
         decompressNumericInts_invalid_handle niEnv id src⟩

/-- C6: whenever the native compress step succeeds on the window
`(off, len)` of source `B` (and the managed allocations succeed),
`compressSerial` returns a newly allocated managed byte array holding the
bytes the native call produced, whose length equals the exact compressed
size reported by the native call (`ZL_validResult`), and — under the native
library's contract that a successful compress never reports more bytes than
the destination capacity it was given — that length is at most
`compress_bound(len)`, the capacity of the scratch buffer. -/
theorem compressSerial_exact_and_bounded (env : SCEnv) (src : List Nat) (off len : Nat)
    (out : List Nat)
    (hpin : env.pinSrcOk = true) (hmal : env.mallocOk = true)
    (htr : env.typedRefOk = true) (hnew : env.newArrayOk = true)
    (hc : env.compress ((src.drop off).take len) (env.compressBound len) = Except.ok out)
    (hwf : ∀ inp cap o2, env.compress inp cap = Except.ok o2 → o2.length ≤ cap) :
    (compressSerial env 1 src off len).ret = some out ∧
    (compressSerial env 1 src off len).reportedSize = some out.length ∧
    out.length ≤ env.compressBound len := by
  refine ⟨?_, ?_, hwf ((src.drop off).take len) (env.compressBound len) out hc⟩ <;>
    simp [compressSerial, hpin, hmal, htr, hnew, hc]

/-- Concrete environment for the C6 witness: the native compress copies at
most `cap` input bytes into the destination, and `compress_bound` adds 16
bytes of headroom. -/
def c6Env : SCEnv :=
  { compressBound := fun n => n + 16
    pinSrcOk := true
    mallocOk := true
    typedRefOk := true
    compress := fun b cap => Except.ok (b.take cap)
    newArrayOk := true
    errStr := fun _ => "GENERIC" }

/-- Witness for C6 at `c6Env`, source `[1,2,3]`, window `(0,3)`. -/
theorem compressSerial_exact_and_bounded_witness :
    (compressSerial c6Env 1 [1, 2, 3] 0 3).ret = some [1, 2, 3] ∧
    (compressSerial c6Env 1 [1, 2, 3] 0 3).reportedSize = some ([1, 2, 3] : List Nat).length ∧
    ([1, 2, 3] : List Nat).length ≤ c6Env.compressBound 3 :=
  compressSerial_exact_and_bounded c6Env [1, 2, 3] 0 3 [1, 2, 3] rfl rfl rfl rfl rfl
    (by
      intro inp cap o2 h
      injection h with h2
      subst h2
      simp [List.length_take])

/-- C7: the binding layer preserves the native library's round-trip
property.  For any compressor environment whose native compress succeeds on
`B` (producing `C`) and any decompressor environment whose size query and
native decompress invert it, `decompressSerial` applied to the output of
`compressSerial` yields exactly `B`: the binding passes the source window
through unchanged, returns exactly the bytes the native compress produced,
and returns exactly the bytes the native decompress produced.  The
environments abstract the native contexts of handles opened on any graph
`G`. -/
theorem serial_round_trip (cenv : SCEnv) (denv : DSEnv) (B C : List Nat) (n : Nat)
    (hcp : cenv.pinSrcOk = true) (hcm : cenv.mallocOk = true)
    (hct : cenv.typedRefOk = true) (hcn : cenv.newArrayOk = true)
    (hc : cenv.compress B (cenv.compressBound B.length) = Except.ok C)
    (hdp : denv.pinSrcOk = true) (hdm : denv.mallocOk = true) (hdn : denv.newArrayOk = true)
    (hs : denv.sizeQuery C = Except.ok n)
    (hd : denv.decompress C n = Except.ok B) :
    (compressSerial cenv 1 B 0 B.length).ret = some C ∧
    (decompressSerial denv 1 C 0 C.length).ret = some B := by
  constructor
  · simp [compressSerial, hcp, hcm, hct, hcn, List.take_length, hc]
  · simp [decompressSerial, hdp, hdm, hdn, List.take_length, hs, hd]

/-- Concrete compressor environment for the C7 witness: compression
prepends a byte. -/
def c7CEnv : SCEnv :=
  { compressBound := fun n => n + 8
    pinSrcOk := true
    mallocOk := true
    typedRefOk := true
    compress := fun b _ => Except.ok (0 :: b)
    newArrayOk := true
    errStr := fun _ => "GENERIC" }

/-- Concrete decompressor environment for the C7 witness: decompression
drops the prepended byte. -/
def c7DEnv : DSEnv :=
  { pinSrcOk := true
    sizeQuery := fun c => Except.ok c.length
    mallocOk := true
    decompress := fun c _ => Except.ok c.tail
    newArrayOk := true
    errStr := fun _ => "GENERIC" }

/-- Witness for C7 at `B = [7, 8]`. -/
theorem serial_round_trip_witness :
    (compressSerial c7CEnv 1 [7, 8] 0 ([7, 8] : List Nat).length).ret = some [0, 7, 8] ∧
    (decompressSerial c7DEnv 1 [0, 7, 8] 0 ([0, 7, 8] : List Nat).length).ret = some [7, 8] :=
  serial_round_trip c7CEnv c7DEnv [7, 8] [0, 7, 8] 3 rfl rfl rfl rfl rfl rfl rfl rfl rfl rfl

/-- C10: whenever the typed native decompress of `decompressNumericInts`
succeeds reporting `numElts = k` (and the managed allocations succeed), the
managed int array is sized to `k` and `SetIntArrayRegion` copies exactly
`k * 4` bytes out of the scratch buffer whose size `n` came from the
earlier decompressed-size query.  The code performs this copy without any
check that `k * 4 ≤ n`: the copied-byte count is `k * 4` for whatever `k`
the native call reports.  The bound `k * 4 ≤ n` therefore holds only under
the native library's contract that a successful typed decompress never
reports more elements than fit in the destination capacity it was given. -/
theorem decompressNumericInts_sizing (env : NIEnv) (src : List Nat) (n k : Nat)
    (out : List Nat)
    (hpin : env.pinSrcOk = true) (hmal : env.mallocOk = true) (hnew : env.newArrayOk = true)
    (hq : env.sizeQuery src = Except.ok n)
    (hd : env.decompressTyped src n = Except.ok (k, out))
    (hwf : ∀ inp cap j o2, env.decompressTyped inp cap = Except.ok (j, o2) → j * 4 ≤ cap) :
    (decompressNumericInts env 1 src).ret = some k ∧
    (decompressNumericInts env 1 src).copiedBytes = some (k * 4) ∧
    (decompressNumericInts env 1 src).queriedSize = some n ∧
    k * 4 ≤ n := by
  refine ⟨?_, ?_, ?_, hwf src n k out hd⟩ <;>
    simp [decompressNumericInts, hpin, hmal, hnew, hq, hd]

/-- Concrete environment for the C10 witness: the typed decompress reports
as many 4-byte elements as fit in the destination capacity. -/
def c10Env : NIEnv :=
  { pinSrcOk := true
    sizeQuery := fun s => Except.ok (s.length * 8)
    mallocOk := true
    decompressTyped := fun _ cap => Except.ok (cap / 4, [])
    newArrayOk := true
    errStr := fun _ => "GENERIC" }

/-- Witness for C10 at `c10Env` and the one-byte source `[9]`: the query
reports 8 bytes of scratch, the typed decompress reports 2 elements, and
2 * 4 = 8 bytes are copied. -/
theorem decompressNumericInts_sizing_witness :
    (decompressNumericInts c10Env 1 [9]).ret = some 2 ∧
    (decompressNumericInts c10Env 1 [9]).copiedBytes = some (2 * 4) ∧
    (decompressNumericInts c10Env 1 [9]).queriedSize = some 8 ∧
    2 * 4 ≤ 8 :=
  decompressNumericInts_sizing c10Env [9] 8 2 [] rfl rfl rfl rfl rfl
    (by
      intro inp cap j o2 h
      injection h with h2
      have hj : j = cap / 4 := by
        have := congrArg Prod.fst h2
        simpa using this.symm
      subst hj
      exact Nat.div_mul_le_self cap 4)
